import Mathlib

/-!
Shallow embedding of the MSF valuation core (capital-structure extraction,
WACC estimation, FCF proxy, FCFF-DCF engine, scenario/sensitivity runner and
context assembly).  JavaScript numbers are modelled as rationals; the JS
`Number(x.toFixed(d))` presentation rounding is modelled by `roundTo d`,
which rounds to the nearest multiple of `10 ^ (-d)`.
-/

/-- Rounding to `d` decimal places, the model of JS `Number(x.toFixed(d))`. -/
def roundTo (d : ℕ) (x : ℚ) : ℚ := (round (x * 10 ^ d) : ℤ) / 10 ^ d

/-! ## Mocked data bundle (MOCK_MSFT_BUNDLE) -/

def MOCK_marketCap : ℚ := 3150000000000

def MOCK_sharesOutstanding : ℚ := 7430000000

def MOCK_beta : ℚ := 89 / 100

def MOCK_price : ℚ := 425

def MOCK_totalDebt : ℚ := 106000000000

def MOCK_cash : ℚ := 80000000000

def MOCK_interestExpense : ℚ := 3000000000

def MOCK_preTaxIncome : ℚ := 100000000000

def MOCK_incomeTax : ℚ := 18000000000

/-- One entry of the mock cash-flow history: `{ period, cfo, capex }`. -/
structure CashflowEntry where
  period : String
  cfo : ℚ
  capex : ℚ
deriving DecidableEq, Repr

def MOCK_cashflow_history : List CashflowEntry :=
  [⟨"2023", 87582000000, 28107000000⟩,
   ⟨"2024 (TTM)", 110000000000, 45000000000⟩]

/-! ## Data model (types.ts) -/

structure CapitalStructure where
  ticker : String
  equity_market_value_E : ℚ
  debt_book_value_D : ℚ
  cash_and_equivalents : ℚ
  net_debt : ℚ
  shares_outstanding : ℚ
  beta : ℚ
  notes : List String
  limitations : List String
  warnings : List String
deriving DecidableEq, Repr

structure UserInputs where
  rf : ℚ
  erp : ℚ
  forecast_years : ℕ
  fcf_growth : ℚ
  terminal_g : ℚ
  beta_override : Option ℚ := none
  kd_override : Option ℚ := none
deriving DecidableEq, Repr

structure CapitalWeights where
  w_e : ℚ
  w_d : ℚ
deriving DecidableEq, Repr

structure WACCComponents where
  equity_market_value_E : ℚ
  debt_book_value_D : ℚ
deriving DecidableEq, Repr

structure WACCResult where
  rf : ℚ
  erp : ℚ
  beta_used : ℚ
  cost_of_equity_ke : ℚ
  tax_rate_effective : ℚ
  cost_of_debt_kd : ℚ
  weights : CapitalWeights
  wacc : ℚ
  warnings : List String
  limitations : List String
  components : WACCComponents
deriving DecidableEq, Repr

structure FCFEntry where
  period : String
  cfo : ℚ
  capex : ℚ
  fcf : ℚ
deriving DecidableEq, Repr

structure FCFData where
  method : String
  fcf_history : List FCFEntry
  fcf0_latest : ℚ
  warnings : List String
  limitations : List String
deriving DecidableEq, Repr

structure DCFAssumptions where
  method : String
  wacc : ℚ
  terminal_g : ℚ
  forecast_years : ℕ
  fcf_growth : ℚ
deriving DecidableEq, Repr

structure DCFResult where
  assumptions : DCFAssumptions
  pv_forecast : ℚ
  pv_terminal : ℚ
  enterprise_value_ev : ℚ
  equity_value : ℚ
  value_per_share : ℚ
  upside_vs_spot : Option ℚ
  warnings : List String
  limitations : List String
deriving DecidableEq, Repr

structure DCFScenarios where
  base : DCFResult
  bull : DCFResult
  bear : DCFResult
deriving DecidableEq, Repr

structure SensitivityGrid where
  wacc_values : List ℚ
  g_values : List ℚ
  value_per_share_matrix : List (List ℚ)
deriving DecidableEq, Repr

structure ScenarioSensitivity where
  scenarios : DCFScenarios
  sensitivity : SensitivityGrid
  warnings : List String
  limitations : List String
deriving DecidableEq, Repr

structure ContextMeta where
  ticker : String
  source : String
  generated_at_utc : String
  cache_used : Bool
deriving DecidableEq, Repr

structure ContextInputs where
  ticker : String
  rf : ℚ
  erp : ℚ
  forecast_years : ℕ
  fcf_growth : ℚ
  terminal_g : ℚ
deriving DecidableEq, Repr

structure AnalystContext where
  meta : ContextMeta
  inputs : ContextInputs
  capital_structure : CapitalStructure
  wacc : WACCResult
  fcf : FCFData
  valuation : DCFResult
  sensitivity : ScenarioSensitivity
  limitations : List String
  warnings : List String
deriving DecidableEq, Repr

/-! ## TOOL 4.2: extract_capital_structure -/

def extract_capital_structure : CapitalStructure :=
  { ticker := "MSFT"
    equity_market_value_E := MOCK_marketCap
    debt_book_value_D := MOCK_totalDebt
    cash_and_equivalents := MOCK_cash
    net_debt := MOCK_totalDebt - MOCK_cash
    shares_outstanding := MOCK_sharesOutstanding
    beta := MOCK_beta
    notes := ["Book debt used as proxy for market value of debt"]
    limitations := ["Reliance on most recent reported balance sheet data"]
    warnings := [] }

/-! ## TOOL 4.3: estimate_wacc

The intermediate (unrounded) quantities of `estimate_wacc` are named `*_raw`
so that theorems can relate the rounded return fields to them. -/

/-- Beta used: override if provided, else the capital structure's beta. -/
def beta_used_raw (cap_struct : CapitalStructure) (inputs : UserInputs) : ℚ :=
  inputs.beta_override.getD cap_struct.beta

/-- Cost of equity (CAPM): `ke = rf + beta * erp`. -/
def ke_raw (cap_struct : CapitalStructure) (inputs : UserInputs) : ℚ :=
  inputs.rf + beta_used_raw cap_struct inputs * inputs.erp

/-- Effective tax rate `T = Tax / PreTaxIncome` from the mock bundle. -/
def t_effective_raw : ℚ := MOCK_incomeTax / MOCK_preTaxIncome

/-- Pre-tax cost of debt after the guardrail: the override (or the
`interestExpense / debt_book_value_D` proxy), replaced by `0.04` when the
value is below `0.01`. -/
def kd_pre_tax_raw (cap_struct : CapitalStructure) (inputs : UserInputs) : ℚ :=
  let kd0 := inputs.kd_override.getD
    (MOCK_interestExpense / cap_struct.debt_book_value_D)
  if kd0 < 1 / 100 then 4 / 100 else kd0

def kd_after_tax_raw (cap_struct : CapitalStructure) (inputs : UserInputs) : ℚ :=
  kd_pre_tax_raw cap_struct inputs * (1 - t_effective_raw)

def w_e_raw (cap_struct : CapitalStructure) : ℚ :=
  cap_struct.equity_market_value_E /
    (cap_struct.equity_market_value_E + cap_struct.debt_book_value_D)

def w_d_raw (cap_struct : CapitalStructure) : ℚ :=
  cap_struct.debt_book_value_D /
    (cap_struct.equity_market_value_E + cap_struct.debt_book_value_D)

/-- Blended WACC before rounding: `ke*w_e + kd_after_tax*w_d`. -/
def wacc_raw (cap_struct : CapitalStructure) (inputs : UserInputs) : ℚ :=
  ke_raw cap_struct inputs * w_e_raw cap_struct +
    kd_after_tax_raw cap_struct inputs * w_d_raw cap_struct

def estimate_wacc (cap_struct : CapitalStructure) (inputs : UserInputs) :
    WACCResult :=
  { rf := inputs.rf
    erp := inputs.erp
    beta_used := beta_used_raw cap_struct inputs
    cost_of_equity_ke := roundTo 5 (ke_raw cap_struct inputs)
    tax_rate_effective := roundTo 4 t_effective_raw
    cost_of_debt_kd := roundTo 4 (kd_pre_tax_raw cap_struct inputs)
    weights :=
      { w_e := roundTo 4 (w_e_raw cap_struct)
        w_d := roundTo 4 (w_d_raw cap_struct) }
    wacc := roundTo 5 (wacc_raw cap_struct inputs)
    warnings :=
      if inputs.beta_override.isSome then ["User provided Beta override"]
      else []
    limitations := ["Kd estimated via Interest Expense / Book Debt proxy"]
    components :=
      { equity_market_value_E := cap_struct.equity_market_value_E
        debt_book_value_D := cap_struct.debt_book_value_D } }

/-! ## TOOL 4.4: compute_fcf_proxy

The source reads the history from the mock bundle; following the spec's data
provider interface the history is a parameter here, and the source's call is
the instantiation at `MOCK_cashflow_history`.  Indexing the last element of
an empty history faults in the source, so the result is an `Option`. -/

def compute_fcf_proxy (history : List CashflowEntry) : Option FCFData :=
  let fhist := history.map fun h =>
    ({ period := h.period, cfo := h.cfo, capex := h.capex,
       fcf := h.cfo - h.capex } : FCFEntry)
  match fhist.getLast? with
  | none => none
  | some latest => some
    { method := "CFO_minus_Capex_proxy_for_FCFF"
      fcf_history := fhist
      fcf0_latest := latest.fcf
      warnings := []
      limitations :=
        ["FCFF approx via CFO - Capex; ignores net interest tax shield adjustments"] }

/-! ## TOOL 4.5: run_fcff_dcf -/

/-- The forecast-period loop of `run_fcff_dcf`: after `years` iterations the
pair holds `(pv_forecast, current_fcf)`, where period `i` first grows the
current FCF by `growth_rate` and then discounts it by `(1+wacc)^i`. -/
def dcf_forecast (fcf0 wacc growth_rate : ℚ) : ℕ → ℚ × ℚ
  | 0 => (0, fcf0)
  | years + 1 =>
    let prev := dcf_forecast fcf0 wacc growth_rate years
    let cur := prev.2 * (1 + growth_rate)
    (prev.1 + cur / (1 + wacc) ^ (years + 1), cur)

def run_fcff_dcf (fcf0 wacc terminal_g : ℚ) (years : ℕ)
    (growth_rate net_debt shares : ℚ) (spot_price : Option ℚ) : DCFResult :=
  let fc := dcf_forecast fcf0 wacc growth_rate years
  let pv_forecast := fc.1
  let fcf_final := fc.2
  let valid_wacc := max wacc (terminal_g + 5 / 1000)
  let tv := fcf_final * (1 + terminal_g) / (valid_wacc - terminal_g)
  let pv_terminal := tv / (1 + wacc) ^ years
  let ev := pv_forecast + pv_terminal
  let equity_val := ev - net_debt
  let val_per_share := equity_val / shares
  let upside : Option ℚ :=
    match spot_price with
    | none => none
    | some s => if s = 0 then none else some ((val_per_share - s) / s)
  { assumptions :=
      { method := "FCFF_DCF"
        wacc := roundTo 4 wacc
        terminal_g := terminal_g
        forecast_years := years
        fcf_growth := growth_rate }
    pv_forecast := pv_forecast
    pv_terminal := pv_terminal
    enterprise_value_ev := ev
    equity_value := equity_val
    value_per_share := val_per_share
    upside_vs_spot := upside
    warnings :=
      if wacc ≤ terminal_g then
        ["WACC was adjusted to be higher than terminal growth for stability"]
      else []
    limitations := ["Standard 2-stage growth model"] }

/-! ## TOOL 4.6: run_scenarios_and_sensitivity -/

def run_scenarios_and_sensitivity (fcf0 base_wacc : ℚ)
    (base_inputs : UserInputs) (net_debt shares : ℚ) : ScenarioSensitivity :=
  let spot := MOCK_price
  let base := run_fcff_dcf fcf0 base_wacc base_inputs.terminal_g
    base_inputs.forecast_years base_inputs.fcf_growth net_debt shares (some spot)
  let bull := run_fcff_dcf fcf0 (max (1 / 100) (base_wacc - 1 / 100))
    base_inputs.terminal_g base_inputs.forecast_years
    (base_inputs.fcf_growth + 2 / 100) net_debt shares (some spot)
  let bear := run_fcff_dcf fcf0 (base_wacc + 1 / 100) base_inputs.terminal_g
    base_inputs.forecast_years (base_inputs.fcf_growth - 2 / 100)
    net_debt shares (some spot)
  let wacc_range := [base_wacc - 1 / 100, base_wacc - 5 / 1000, base_wacc,
    base_wacc + 5 / 1000, base_wacc + 1 / 100]
  let g_range := [base_inputs.terminal_g - 5 / 1000, base_inputs.terminal_g,
    base_inputs.terminal_g + 5 / 1000]
  let matrix := wacc_range.map fun w =>
    g_range.map fun g =>
      (run_fcff_dcf fcf0 w g base_inputs.forecast_years
        base_inputs.fcf_growth net_debt shares none).value_per_share
  { scenarios := { base := base, bull := bull, bear := bear }
    sensitivity :=
      { wacc_values := wacc_range
        g_values := g_range
        value_per_share_matrix := matrix }
    warnings := []
    limitations := [] }

/-! ## TOOL 4.7: build_context_json

The source stamps `new Date().toISOString()` into the metadata; the
timestamp string is a parameter of the model. -/

def build_context_json (inputs : UserInputs) (cs : CapitalStructure)
    (wacc : WACCResult) (fcf : FCFData) (sens : ScenarioSensitivity)
    (now_utc : String) : AnalystContext :=
  { meta :=
      { ticker := "MSFT"
        source := "yfinance (simulated)"
        generated_at_utc := now_utc
        cache_used := true }
    inputs :=
      { ticker := "MSFT"
        rf := inputs.rf
        erp := inputs.erp
        forecast_years := inputs.forecast_years
        fcf_growth := inputs.fcf_growth
        terminal_g := inputs.terminal_g }
    capital_structure := cs
    wacc := wacc
    fcf := fcf
    valuation := sens.scenarios.base
    sensitivity := sens
    limitations := cs.limitations ++ wacc.limitations ++ fcf.limitations ++
      sens.scenarios.base.limitations
    warnings := cs.warnings ++ wacc.warnings }

/-! ## Helper lemmas -/

/-- After `years` loop iterations the running FCF equals
`fcf0 * (1 + growth_rate) ^ years`. -/
theorem dcf_forecast_snd (fcf0 wacc growth_rate : ℚ) :
    ∀ years, (dcf_forecast fcf0 wacc growth_rate years).2 =
      fcf0 * (1 + growth_rate) ^ years
  | 0 => by simp [dcf_forecast]
  | years + 1 => by
    simp [dcf_forecast, dcf_forecast_snd fcf0 wacc growth_rate years]
    ring

/-! ## Claims -/

/-- C1: for `run_fcff_dcf` with fcf0=100, wacc=0.10, terminal_g=0.03,
years=1, growth_rate=0, net_debt=0, shares=100 and no spot price, the
forecast-period PV is 100/1.10, the terminal value (100·1.03)/(0.10−0.03)
discounted one period is the terminal PV, enterprise and equity value equal
10000/7 ≈ 1428.57, and value per share equals 100/7 ≈ 14.29. -/
theorem run_fcff_dcf_base_case_example :
    (run_fcff_dcf 100 (1/10) (3/100) 1 0 0 100 none).pv_forecast =
      100 / (1 + 1/10) ∧
    (run_fcff_dcf 100 (1/10) (3/100) 1 0 0 100 none).pv_terminal =
      100 * (1 + 3/100) / (1/10 - 3/100) / (1 + 1/10) ∧
    (run_fcff_dcf 100 (1/10) (3/100) 1 0 0 100 none).enterprise_value_ev =
      10000 / 7 ∧
    (run_fcff_dcf 100 (1/10) (3/100) 1 0 0 100 none).equity_value =
      10000 / 7 ∧
    (run_fcff_dcf 100 (1/10) (3/100) 1 0 0 100 none).value_per_share =
      100 / 7 := by
  norm_num [run_fcff_dcf, dcf_forecast]

/-- C2: the terminal-value denominator uses `max wacc (terminal_g + 0.005)`
while the terminal value is discounted at the unmodified wacc, and a warning
is emitted iff the unmodified wacc is ≤ terminal_g; with
wacc = terminal_g = 0.03 the effective rate is 0.035 and a warning is
emitted (pv_terminal stays finite: 20000 on the sample input). -/
theorem run_fcff_dcf_terminal_guardrail :
    (∀ (fcf0 wacc terminal_g : ℚ) (years : ℕ)
        (growth_rate net_debt shares : ℚ) (spot_price : Option ℚ),
      (run_fcff_dcf fcf0 wacc terminal_g years growth_rate net_debt shares
          spot_price).pv_terminal =
        fcf0 * (1 + growth_rate) ^ years * (1 + terminal_g) /
          (max wacc (terminal_g + 5/1000) - terminal_g) / (1 + wacc) ^ years ∧
      ((run_fcff_dcf fcf0 wacc terminal_g years growth_rate net_debt shares
          spot_price).warnings ≠ [] ↔ wacc ≤ terminal_g)) ∧
    max ((3:ℚ)/100) (3/100 + 5/1000) = 7/200 ∧
    (run_fcff_dcf 100 (3/100) (3/100) 1 0 0 100 none).pv_terminal = 20000 ∧
    (run_fcff_dcf 100 (3/100) (3/100) 1 0 0 100 none).warnings ≠ [] := by
  refine ⟨fun fcf0 wacc terminal_g years growth_rate net_debt shares
    spot_price => ⟨?_, ?_⟩, by norm_num,
    by norm_num [run_fcff_dcf, dcf_forecast], by norm_num [run_fcff_dcf]⟩
  · simp [run_fcff_dcf, dcf_forecast_snd]
  · simp only [run_fcff_dcf]
    split_ifs with h <;> simp [h]

/-- C3: without a cost-of-debt override, a pre-tax Kd ratio
`interest_expense / debt_book_value_D` below 0.01 makes the returned
`cost_of_debt_kd` exactly 0.04; a ratio ≥ 0.01 is returned itself (rounded
to 4 decimals). -/
theorem estimate_wacc_kd_fallback (cs : CapitalStructure)
    (inputs : UserInputs) (hov : inputs.kd_override = none) :
    (MOCK_interestExpense / cs.debt_book_value_D < 1/100 →
      (estimate_wacc cs inputs).cost_of_debt_kd = 4/100) ∧
    (1/100 ≤ MOCK_interestExpense / cs.debt_book_value_D →
      (estimate_wacc cs inputs).cost_of_debt_kd =
        roundTo 4 (MOCK_interestExpense / cs.debt_book_value_D)) := by
  constructor
  · intro h
    have hk : kd_pre_tax_raw cs inputs = 4/100 := by
      simp only [kd_pre_tax_raw, hov, Option.getD_none]
      exact if_pos h
    simp [estimate_wacc, hk]
    norm_num [roundTo, round_eq]
  · intro h
    have hk : kd_pre_tax_raw cs inputs =
        MOCK_interestExpense / cs.debt_book_value_D := by
      simp only [kd_pre_tax_raw, hov, Option.getD_none]
      exact if_neg (not_lt.mpr h)
    simp [estimate_wacc, hk]

/-- Concrete capital structure with a tiny Kd ratio (3e9 / 1e12 = 0.003). -/
def csKdW : CapitalStructure :=
  { ticker := "X", equity_market_value_E := 1000,
    debt_book_value_D := 1000000000000, cash_and_equivalents := 0,
    net_debt := 1000000000000, shares_outstanding := 1, beta := 1,
    notes := [], limitations := [], warnings := [] }

def inputsNoOverride : UserInputs :=
  { rf := 4/100, erp := 5/100, forecast_years := 5, fcf_growth := 1/10,
    terminal_g := 25/1000 }

theorem estimate_wacc_kd_fallback_witness :
    inputsNoOverride.kd_override = none ∧
    MOCK_interestExpense / csKdW.debt_book_value_D < 1/100 ∧
    (estimate_wacc csKdW inputsNoOverride).cost_of_debt_kd = 4/100 :=
  ⟨rfl, by norm_num [csKdW, MOCK_interestExpense],
    (estimate_wacc_kd_fallback csKdW inputsNoOverride rfl).1
      (by norm_num [csKdW, MOCK_interestExpense])⟩

/-- C10: the 1% guardrail also applies to a user-supplied cost-of-debt
override: an override below 0.01 is discarded and 0.04 is returned. -/
theorem estimate_wacc_kd_override_guardrail (cs : CapitalStructure)
    (inputs : UserInputs) (v : ℚ) (hov : inputs.kd_override = some v)
    (hlt : v < 1/100) :
    (estimate_wacc cs inputs).cost_of_debt_kd = 4/100 := by
  have hk : kd_pre_tax_raw cs inputs = 4/100 := by
    simp only [kd_pre_tax_raw, hov, Option.getD_some]
    exact if_pos hlt
  simp [estimate_wacc, hk]
  norm_num [roundTo, round_eq]

def inputsKdOv : UserInputs :=
  { rf := 4/100, erp := 5/100, forecast_years := 5, fcf_growth := 1/10,
    terminal_g := 25/1000, kd_override := some (5/1000) }

theorem estimate_wacc_kd_override_guardrail_witness :
    inputsKdOv.kd_override = some (5/1000) ∧ (5:ℚ)/1000 < 1/100 ∧
    (estimate_wacc csKdW inputsKdOv).cost_of_debt_kd = 4/100 :=
  ⟨rfl, by norm_num,
    estimate_wacc_kd_override_guardrail csKdW inputsKdOv (5/1000) rfl
      (by norm_num)⟩

/-- Capital structure with an even equity/debt split (E = D = 7e9), used to
exhibit the rounding of the returned wacc. -/
def csEqualSplit : CapitalStructure :=
  { ticker := "X", equity_market_value_E := 7000000000,
    debt_book_value_D := 7000000000, cash_and_equivalents := 0,
    net_debt := 7000000000, shares_outstanding := 1, beta := 89/100,
    notes := [], limitations := [], warnings := [] }

/-- C4 counterexample: on `csEqualSplit` with rf=0.04, erp=0.05 the returned
`wacc` (rounded to 5 decimals) differs from the exact weighted average
`ke·w_e + kd_after_tax·w_d`. -/
theorem estimate_wacc_weighted_average_cex :
    (estimate_wacc csEqualSplit inputsNoOverride).wacc ≠
      ke_raw csEqualSplit inputsNoOverride * w_e_raw csEqualSplit +
        kd_after_tax_raw csEqualSplit inputsNoOverride *
          w_d_raw csEqualSplit := by
  have h1 : ke_raw csEqualSplit inputsNoOverride * w_e_raw csEqualSplit +
      kd_after_tax_raw csEqualSplit inputsNoOverride * w_d_raw csEqualSplit =
      6103 / 28000 := by
    norm_num [ke_raw, beta_used_raw, kd_after_tax_raw, kd_pre_tax_raw,
      t_effective_raw, w_e_raw, w_d_raw, csEqualSplit, inputsNoOverride,
      MOCK_interestExpense, MOCK_incomeTax, MOCK_preTaxIncome]
  have h2 : (estimate_wacc csEqualSplit inputsNoOverride).wacc =
      21796 / 100000 := by
    have hw : wacc_raw csEqualSplit inputsNoOverride = 6103 / 28000 := by
      norm_num [wacc_raw, ke_raw, beta_used_raw, kd_after_tax_raw,
        kd_pre_tax_raw, t_effective_raw, w_e_raw, w_d_raw, csEqualSplit,
        inputsNoOverride, MOCK_interestExpense, MOCK_incomeTax,
        MOCK_preTaxIncome]
    show roundTo 5 (wacc_raw csEqualSplit inputsNoOverride) = 21796 / 100000
    rw [hw]
    norm_num [roundTo, round_eq]
  rw [h1, h2]
  norm_num

/-- C4 (amended): the returned `wacc` equals the weighted average
`ke·w_e + kd_after_tax·w_d` rounded to 5 decimals; the weights sum to 1, and
whenever E and D are positive and the after-tax cost of debt is below the
cost of equity, the unrounded weighted average lies strictly between them. -/
theorem estimate_wacc_weighted_average (cs : CapitalStructure)
    (inputs : UserInputs) (hE : 0 < cs.equity_market_value_E)
    (hD : 0 < cs.debt_book_value_D)
    (hk : kd_after_tax_raw cs inputs < ke_raw cs inputs) :
    (estimate_wacc cs inputs).wacc =
      roundTo 5 (ke_raw cs inputs * w_e_raw cs +
        kd_after_tax_raw cs inputs * w_d_raw cs) ∧
    w_e_raw cs + w_d_raw cs = 1 ∧
    kd_after_tax_raw cs inputs < wacc_raw cs inputs ∧
    wacc_raw cs inputs < ke_raw cs inputs := by
  have hV : 0 < cs.equity_market_value_E + cs.debt_book_value_D := by
    linarith
  have hsum : w_e_raw cs + w_d_raw cs = 1 := by
    unfold w_e_raw w_d_raw
    rw [div_add_div_same, div_self (ne_of_gt hV)]
  have hwe : 0 < w_e_raw cs := div_pos hE hV
  have hwd : 0 < w_d_raw cs := div_pos hD hV
  have hlow : wacc_raw cs inputs - kd_after_tax_raw cs inputs =
      (ke_raw cs inputs - kd_after_tax_raw cs inputs) * w_e_raw cs := by
    unfold wacc_raw
    linear_combination kd_after_tax_raw cs inputs * hsum
  have hhigh : ke_raw cs inputs - wacc_raw cs inputs =
      (ke_raw cs inputs - kd_after_tax_raw cs inputs) * w_d_raw cs := by
    unfold wacc_raw
    linear_combination (-(ke_raw cs inputs)) * hsum
  refine ⟨rfl, hsum, ?_, ?_⟩
  · nlinarith [mul_pos (sub_pos.mpr hk) hwe]
  · nlinarith [mul_pos (sub_pos.mpr hk) hwd]

theorem estimate_wacc_weighted_average_witness :
    ((0:ℚ) < extract_capital_structure.equity_market_value_E ∧
      (0:ℚ) < extract_capital_structure.debt_book_value_D ∧
      kd_after_tax_raw extract_capital_structure inputsNoOverride <
        ke_raw extract_capital_structure inputsNoOverride) ∧
    (kd_after_tax_raw extract_capital_structure inputsNoOverride <
      wacc_raw extract_capital_structure inputsNoOverride ∧
     wacc_raw extract_capital_structure inputsNoOverride <
      ke_raw extract_capital_structure inputsNoOverride) := by
  have hE : (0:ℚ) < extract_capital_structure.equity_market_value_E := by
    norm_num [extract_capital_structure, MOCK_marketCap]
  have hD : (0:ℚ) < extract_capital_structure.debt_book_value_D := by
    norm_num [extract_capital_structure, MOCK_totalDebt]
  have hk : kd_after_tax_raw extract_capital_structure inputsNoOverride <
      ke_raw extract_capital_structure inputsNoOverride := by
    norm_num [kd_after_tax_raw, kd_pre_tax_raw, t_effective_raw, ke_raw,
      beta_used_raw, extract_capital_structure, inputsNoOverride,
      MOCK_interestExpense, MOCK_totalDebt, MOCK_incomeTax,
      MOCK_preTaxIncome, MOCK_beta]
  exact ⟨⟨hE, hD, hk⟩,
    (estimate_wacc_weighted_average extract_capital_structure
      inputsNoOverride hE hD hk).2.2⟩

/-- User inputs whose risk-free rate 1/3 has no finite decimal expansion. -/
def inputsThirdRf : UserInputs :=
  { rf := 1/3, erp := 5/100, forecast_years := 5, fcf_growth := 1/10,
    terminal_g := 25/1000 }

/-- C5 counterexample: the returned `rf` field is the echoed input, not a
value rounded to 5 (or 4) decimal places — with rf = 1/3 the returned field
is not a fixed point of either rounding. -/
theorem estimate_wacc_rounding_cex :
    (estimate_wacc extract_capital_structure inputsThirdRf).rf = 1/3 ∧
    roundTo 5 (estimate_wacc extract_capital_structure inputsThirdRf).rf ≠
      (estimate_wacc extract_capital_structure inputsThirdRf).rf ∧
    roundTo 4 (estimate_wacc extract_capital_structure inputsThirdRf).rf ≠
      (estimate_wacc extract_capital_structure inputsThirdRf).rf := by
  have hrf : (estimate_wacc extract_capital_structure inputsThirdRf).rf =
      1/3 := rfl
  refine ⟨hrf, ?_, ?_⟩ <;> rw [hrf] <;> norm_num [roundTo, round_eq]

/-- C5 (amended): the computed fields are rounded before return — cost of
equity and wacc to 5 decimals; tax rate, cost of debt and the weights to 4
decimals — while rf, erp, beta_used and the components are returned without
rounding. -/
theorem estimate_wacc_rounding (cs : CapitalStructure)
    (inputs : UserInputs) :
    (estimate_wacc cs inputs).cost_of_equity_ke =
      roundTo 5 (ke_raw cs inputs) ∧
    (estimate_wacc cs inputs).wacc = roundTo 5 (wacc_raw cs inputs) ∧
    (estimate_wacc cs inputs).tax_rate_effective =
      roundTo 4 t_effective_raw ∧
    (estimate_wacc cs inputs).cost_of_debt_kd =
      roundTo 4 (kd_pre_tax_raw cs inputs) ∧
    (estimate_wacc cs inputs).weights.w_e = roundTo 4 (w_e_raw cs) ∧
    (estimate_wacc cs inputs).weights.w_d = roundTo 4 (w_d_raw cs) ∧
    (estimate_wacc cs inputs).rf = inputs.rf ∧
    (estimate_wacc cs inputs).erp = inputs.erp ∧
    (estimate_wacc cs inputs).beta_used = beta_used_raw cs inputs ∧
    (estimate_wacc cs inputs).components.equity_market_value_E =
      cs.equity_market_value_E ∧
    (estimate_wacc cs inputs).components.debt_book_value_D =
      cs.debt_book_value_D :=
  ⟨rfl, rfl, rfl, rfl, rfl, rfl, rfl, rfl, rfl, rfl, rfl⟩

/-- The per-entry FCF map of `compute_fcf_proxy`. -/
def fcfOfEntry (e : CashflowEntry) : FCFEntry :=
  { period := e.period, cfo := e.cfo, capex := e.capex,
    fcf := e.cfo - e.capex }

/-- C6: for a non-empty history, `compute_fcf_proxy` returns a history of
the same length and order with each fcf = cfo − capex, and `fcf0_latest`
equal to the fcf of the last input entry (no sorting by period). -/
theorem compute_fcf_proxy_history (history : List CashflowEntry)
    (h : history ≠ []) :
    ∃ d, compute_fcf_proxy history = some d ∧
      d.fcf_history = history.map fcfOfEntry ∧
      d.fcf_history.length = history.length ∧
      d.fcf0_latest =
        (history.getLast h).cfo - (history.getLast h).capex := by
  have hL : history.getLast? = some (history.getLast h) :=
    List.getLast?_eq_getLast history h
  refine ⟨⟨"CFO_minus_Capex_proxy_for_FCFF", history.map fcfOfEntry,
    (history.getLast h).cfo - (history.getLast h).capex, [],
    ["FCFF approx via CFO - Capex; ignores net interest tax shield adjustments"]⟩,
    ?_, rfl, by simp, rfl⟩
  unfold compute_fcf_proxy
  simp only [List.getLast?_map, hL, Option.map_some]
  rfl

theorem compute_fcf_proxy_history_witness :
    MOCK_cashflow_history ≠ [] ∧
    ∃ d, compute_fcf_proxy MOCK_cashflow_history = some d ∧
      d.fcf_history = MOCK_cashflow_history.map fcfOfEntry ∧
      d.fcf_history.length = MOCK_cashflow_history.length ∧
      d.fcf0_latest =
        (MOCK_cashflow_history.getLast (by simp [MOCK_cashflow_history])).cfo -
        (MOCK_cashflow_history.getLast (by simp [MOCK_cashflow_history])).capex :=
  ⟨by simp [MOCK_cashflow_history],
    compute_fcf_proxy_history MOCK_cashflow_history
      (by simp [MOCK_cashflow_history])⟩

/-- C7: the bull DCF call gets wacc `max(0.01, base−0.01)` and growth
`base+0.02`, the bear call gets wacc `base+0.01` and growth `base−0.02`,
with terminal growth, years, net debt, shares and the spot price identical
to the base scenario's. -/
theorem run_scenarios_bull_bear (fcf0 base_wacc : ℚ)
    (base_inputs : UserInputs) (net_debt shares : ℚ) :
    (run_scenarios_and_sensitivity fcf0 base_wacc base_inputs net_debt
        shares).scenarios.base =
      run_fcff_dcf fcf0 base_wacc base_inputs.terminal_g
        base_inputs.forecast_years base_inputs.fcf_growth net_debt shares
        (some MOCK_price) ∧
    (run_scenarios_and_sensitivity fcf0 base_wacc base_inputs net_debt
        shares).scenarios.bull =
      run_fcff_dcf fcf0 (max (1/100) (base_wacc - 1/100))
        base_inputs.terminal_g base_inputs.forecast_years
        (base_inputs.fcf_growth + 2/100) net_debt shares (some MOCK_price) ∧
    (run_scenarios_and_sensitivity fcf0 base_wacc base_inputs net_debt
        shares).scenarios.bear =
      run_fcff_dcf fcf0 (base_wacc + 1/100) base_inputs.terminal_g
        base_inputs.forecast_years (base_inputs.fcf_growth - 2/100)
        net_debt shares (some MOCK_price) :=
  ⟨rfl, rfl, rfl⟩

/-- C8: the sensitivity matrix is the row-major 5×3 grid over the ascending
WACC values {base±1%, base±0.5%, base} and ascending growth values
{base_g±0.5%, base_g}, and its center cell equals the base scenario's value
per share. -/
theorem run_scenarios_sensitivity_grid (fcf0 base_wacc : ℚ)
    (base_inputs : UserInputs) (net_debt shares : ℚ) :
    (run_scenarios_and_sensitivity fcf0 base_wacc base_inputs net_debt
        shares).sensitivity.wacc_values =
      [base_wacc - 1/100, base_wacc - 5/1000, base_wacc,
        base_wacc + 5/1000, base_wacc + 1/100] ∧
    (run_scenarios_and_sensitivity fcf0 base_wacc base_inputs net_debt
        shares).sensitivity.g_values =
      [base_inputs.terminal_g - 5/1000, base_inputs.terminal_g,
        base_inputs.terminal_g + 5/1000] ∧
    List.Chain' (· < ·) (run_scenarios_and_sensitivity fcf0 base_wacc
      base_inputs net_debt shares).sensitivity.wacc_values ∧
    List.Chain' (· < ·) (run_scenarios_and_sensitivity fcf0 base_wacc
      base_inputs net_debt shares).sensitivity.g_values ∧
    (run_scenarios_and_sensitivity fcf0 base_wacc base_inputs net_debt
        shares).sensitivity.value_per_share_matrix =
      (run_scenarios_and_sensitivity fcf0 base_wacc base_inputs net_debt
        shares).sensitivity.wacc_values.map (fun w =>
          (run_scenarios_and_sensitivity fcf0 base_wacc base_inputs net_debt
            shares).sensitivity.g_values.map (fun g =>
              (run_fcff_dcf fcf0 w g base_inputs.forecast_years
                base_inputs.fcf_growth net_debt shares
                none).value_per_share)) ∧
    (run_scenarios_and_sensitivity fcf0 base_wacc base_inputs net_debt
        shares).sensitivity.value_per_share_matrix.length = 5 ∧
    (∀ row ∈ (run_scenarios_and_sensitivity fcf0 base_wacc base_inputs
        net_debt shares).sensitivity.value_per_share_matrix,
      row.length = 3) ∧
    ((run_scenarios_and_sensitivity fcf0 base_wacc base_inputs net_debt
        shares).sensitivity.value_per_share_matrix.getD 2 []).getD 1 0 =
      (run_scenarios_and_sensitivity fcf0 base_wacc base_inputs net_debt
        shares).scenarios.base.value_per_share := by
  refine ⟨rfl, rfl, ?_, ?_, rfl, by simp [run_scenarios_and_sensitivity],
    by simp [run_scenarios_and_sensitivity], ?_⟩
  · show List.Chain' (· < ·) [base_wacc - 1/100, base_wacc - 5/1000,
      base_wacc, base_wacc + 5/1000, base_wacc + 1/100]
    simp only [List.chain'_cons, List.chain'_singleton, and_true]
    refine ⟨by linarith, by linarith, by linarith, by linarith⟩
  · show List.Chain' (· < ·) [base_inputs.terminal_g - 5/1000,
      base_inputs.terminal_g, base_inputs.terminal_g + 5/1000]
    simp only [List.chain'_cons, List.chain'_singleton, and_true]
    refine ⟨by linarith, by linarith⟩
  · rfl

/-- C9: the assembled context's limitations list is the concatenation of
the capital structure's, WACC result's, FCF data's and base valuation's
limitations (its length is their sum), and its warnings list is the capital
structure's warnings followed by the WACC result's. -/
theorem build_context_json_aggregates (inputs : UserInputs)
    (cs : CapitalStructure) (wacc : WACCResult) (fcf : FCFData)
    (sens : ScenarioSensitivity) (now_utc : String) :
    (build_context_json inputs cs wacc fcf sens now_utc).limitations =
      cs.limitations ++ wacc.limitations ++ fcf.limitations ++
        sens.scenarios.base.limitations ∧
    (build_context_json inputs cs wacc fcf sens now_utc).limitations.length =
      cs.limitations.length + wacc.limitations.length +
        fcf.limitations.length + sens.scenarios.base.limitations.length ∧
    (build_context_json inputs cs wacc fcf sens now_utc).warnings =
      cs.warnings ++ wacc.warnings := by
  refine ⟨rfl, ?_, rfl⟩
  simp [build_context_json]
  omega
